import Mathlib

/-!
Verification of the `teams` build-time data-to-source generator
(`generate.go`, `model/team.go`, `main.go`).

The generator reflects on a record type, synthesizes a `text/template`
string (`generateTemplate`), trims whitespace from every string field and
string-slice element of each record (`sanitizeEntity`), executes the
template against the sanitized records (`generateCodeString`) and writes
the result to `internal/generated_data/<plural>_data.go`
(`generateCodeFile`).

Shallow embedding conventions:

* Go values that can appear as record fields or sanitizer arguments are
  `GoVal`; the static shape of a field is `GoType` (`reflect.Kind` as
  used by the source: the `switch` in `generateTemplate` distinguishes
  only `reflect.Slice` from everything else, and `sanitizeEntity`
  additionally looks at `reflect.String`, `reflect.Ptr` and
  `reflect.Struct`).
* A record (a Go struct value) is its ordered field list
  `List (String × GoVal)`; the template field access `.F` is a lookup by
  name, which for a schema-typed record always succeeds (in Go a missing
  field is a compile-time error).
* `generateTemplate` is embedded twice: once as the literal template
  TEXT the Go function returns (`generateTemplate` below), and once as
  the `text/template` EXECUTION of that text against a record list
  (`executeTemplate`), with the whitespace-trim markers of the actions
  (the dash in the opening of `range` and `end`) applied exactly as
  `text/template` does: the dash eats the adjacent literal whitespace,
  including newlines.
-/

/-- Static shape of a struct field, as far as the generator inspects it
via `reflect`. `strukt` carries the printed type name because `%s` on a
`reflect.Type` prints it. Numeric, map and other non-slice kinds all hit
the `default` branch of the `switch` in `generateTemplate`; `int` stands
for any such scalar, non-string kind. -/
inductive GoType where
  | str : GoType
  | int : GoType
  | slice : GoType → GoType
  | strukt : String → GoType
deriving DecidableEq

/-- Printed form of a `reflect.Type` (the `%s` verb), as used for the
element type of a slice field in `generateTemplate`. -/
def goTypeName : GoType → String
  | GoType.str => "string"
  | GoType.int => "int"
  | GoType.slice t => "[]" ++ goTypeName t
  | GoType.strukt n => n

/-- One struct field of a record type: its name and static shape, in
declaration order, as `reflect.Type.Field` yields them. -/
structure GoField where
  name : String
  type : GoType

/-- A Go runtime value, as far as the generator manipulates values:
strings, non-string scalars (represented by `int`), slices (tagged with
their static element type, because `sanitizeEntity` branches on
`field.Type().Elem().Kind()`), struct values (ordered field lists) and
pointers (`none` is the nil pointer). -/
inductive GoVal where
  | str : String → GoVal
  | int : Int → GoVal
  | slice : GoType → List GoVal → GoVal
  | strukt : List (String × GoVal) → GoVal
  | ptr : Option GoVal → GoVal

/-- A record value: the ordered fields of a struct of the record kind. -/
abbrev GoRecord := List (String × GoVal)

mutual
/-- Printing of a value by the `fmt` package default verb `%v`, which is
what a `text/template` action such as the element interpolation in the
generated templates uses. Only the `str` and `int` branches are ever
exercised by the record kinds of this repository; the remaining branches
follow the `%v` layout for slices, structs and pointers. -/
def fmtV : GoVal → String
  | GoVal.str s => s
  | GoVal.int n => toString n
  | GoVal.slice _ xs => "[" ++ fmtVList xs ++ "]"
  | GoVal.strukt fs => "\x7b" ++ fmtVFields fs ++ "\x7d"
  | GoVal.ptr none => "<nil>"
  | GoVal.ptr (some v) => "&" ++ fmtV v

/-- Space-separated `%v` printing of slice elements. -/
def fmtVList : List GoVal → String
  | [] => ""
  | [v] => fmtV v
  | v :: vs => fmtV v ++ " " ++ fmtVList vs

/-- Space-separated `%v` printing of struct field values. -/
def fmtVFields : List (String × GoVal) → String
  | [] => ""
  | [(_, v)] => fmtV v
  | (_, v) :: fs => fmtV v ++ " " ++ fmtVFields fs
end

/-- The predicate `unicode.IsSpace` of the Go standard library: the
White_Space code points. `strings.TrimSpace` trims exactly these. -/
def goIsSpace (c : Char) : Bool :=
  let n := c.toNat
  n == 9 || n == 10 || n == 11 || n == 12 || n == 13 || n == 32 ||
  n == 0x85 || n == 0xA0 || n == 0x1680 || (0x2000 ≤ n && n ≤ 0x200A) ||
  n == 0x2028 || n == 0x2029 || n == 0x202F || n == 0x205F || n == 0x3000

/-- The character list of `strings.TrimSpace`: drop `unicode.IsSpace`
characters from the front, then from the back. -/
def trimSpaceList (l : List Char) : List Char :=
  List.rdropWhile goIsSpace (l.dropWhile goIsSpace)

/-- Embedding of `strings.TrimSpace`. -/
def trimSpace (s : String) : String :=
  String.mk (trimSpaceList s.data)

/-- Trimming of one element of a string slice, as the inner loop of
`sanitizeEntity` performs it: `strVal.SetString(TrimSpace(strVal.String()))`.
For a slice of static element type string every element is a string; the
catch-all branch is never reached there. -/
def trimElem : GoVal → GoVal
  | GoVal.str s => GoVal.str (trimSpace s)
  | v => v

/-- Effect of the field loop of `sanitizeEntity` on one field value
(`generate.go` lines 92-109): a string field is trimmed in place; a
slice field whose static element type is string has every element
trimmed; every other field kind falls through the `switch` untouched.
The `CanSet` guards are true here: the fields are reached through a
pointer dereference and the record kinds of this repository have only
exported fields. -/
def sanitizeField : GoVal → GoVal
  | GoVal.str s => GoVal.str (trimSpace s)
  | GoVal.slice GoType.str xs => GoVal.slice GoType.str (xs.map trimElem)
  | v => v

/-- The field loop of `sanitizeEntity` applied to a whole struct value. -/
def sanitizeRecord (r : GoRecord) : GoRecord :=
  r.map fun nv => (nv.1, sanitizeField nv.2)

/-- Embedding of `sanitizeEntity` (`generate.go` lines 85-112): the
argument must be a pointer whose dereference is a struct
(`val.Kind() == reflect.Ptr && val.Elem().Kind() == reflect.Struct`); a
nil pointer dereferences to the invalid `reflect.Value`, whose kind is
not `Struct`, so it is rejected too. On success the string fields and
string-slice elements are trimmed in place and `nil` is returned. -/
def sanitizeEntity (entity : GoVal) : Except String GoVal :=
  match entity with
  | GoVal.ptr (some (GoVal.strukt fields)) =>
      Except.ok (GoVal.ptr (some (GoVal.strukt (sanitizeRecord fields))))
  | _ => Except.error "expected a pointer to a struct"

/-- The per-field sub-template text built by the loop in
`generateTemplate` (`generate.go` lines 43-49): a slice field renders as
a bracketed element range, anything else as a quoted interpolation. -/
def fieldTemplate (f : GoField) : String :=
  match f.type with
  | GoType.slice elt =>
      f.name ++ ": []" ++ goTypeName elt ++ "\x7b \x7b\x7b- range ." ++
        f.name ++ " \x7d\x7d\x22\x7b\x7b . \x7d\x7d\x22,\x7b\x7b- end \x7d\x7d \x7d"
  | _ => f.name ++ ": \x22\x7b\x7b ." ++ f.name ++ " \x7d\x7d\x22"

/-- The fixed text of the Generated Source Unit up to and including the
opening brace of the collection literal. -/
def unitHead (pluralName typeName : String) : String :=
  "package generated_data\n\nimport \x22github.com/rvodden/teams/model\x22\n\nvar " ++
    pluralName ++ " = []" ++ typeName ++ "\x7b"

/-- The fixed text of the Generated Source Unit after the last record
line: a newline, the closing brace and a final newline. -/
def unitFoot : String := "\n\x7d\n"

/-- Embedding of `generateTemplate` (`generate.go` lines 35-63): the
literal template text the Go function returns. `typeName` is the `%s`
printing of `reflect.TypeOf(entity)`, for instance `model.Team`. -/
def generateTemplate (pluralName typeName : String) (fields : List GoField) : String :=
  unitHead pluralName typeName ++
    "\n\x7b\x7b- range . \x7d\x7d\n    \x7b" ++
    String.intercalate ", " (fields.map fieldTemplate) ++
    "\x7d,\n\x7b\x7b- end \x7d\x7d" ++ unitFoot

/-- Field access `.F` of `text/template` on a record. For a record of
the schema the lookup always succeeds; the default is never reached
there (in Go the field is statically guaranteed to exist). -/
def fieldVal (r : GoRecord) (name : String) : GoVal :=
  (r.lookup name).getD (GoVal.str "")

/-- The elements a `range .F` action iterates over. For a slice-typed
field of a schema-typed record the value is always a slice. -/
def sliceElems : GoVal → List GoVal
  | GoVal.slice _ xs => xs
  | _ => []

/-- Execution of one per-field sub-template (`fieldTemplate`) against a
record, with the `text/template` trim markers applied: the dash in
`range` eats the space after the opening brace of the slice literal, so
elements start immediately after it, and each element contributes
`"<elem>",`; the closing ` brace` of the literal keeps its leading
space. -/
def renderField (r : GoRecord) (f : GoField) : String :=
  match f.type with
  | GoType.slice elt =>
      f.name ++ ": []" ++ goTypeName elt ++ "\x7b" ++
        String.join ((sliceElems (fieldVal r f.name)).map fun v =>
          "\x22" ++ fmtV v ++ "\x22,") ++ " \x7d"
  | _ => f.name ++ ": \x22" ++ fmtV (fieldVal r f.name) ++ "\x22"

/-- Execution of one iteration of the outer `range . ` block: the dashes
in `range` and `end` eat the surrounding newlines, so each record
contributes exactly one line, starting with a newline and four spaces. -/
def renderRecord (fields : List GoField) (r : GoRecord) : String :=
  "\n    \x7b" ++ String.intercalate ", " (fields.map (renderField r)) ++ "\x7d,"

/-- Execution of the outer `range . ` block over the record list, in
list order, exactly as `text/template` iterates a slice. -/
def renderBody (fields : List GoField) : List GoRecord → String
  | [] => ""
  | r :: rs => renderRecord fields r ++ renderBody fields rs

/-- Execution of the template text `generateTemplate pluralName typeName
fields` against a record list, via the `text/template` semantics
described above. -/
def executeTemplate (pluralName typeName : String) (fields : List GoField)
    (records : List GoRecord) : String :=
  unitHead pluralName typeName ++ renderBody fields records ++ unitFoot

/-- Embedding of `generateCodeString` (`generate.go` lines 127-146): the
sanitizer (`sanitizeEntity` on a pointer to each entity, which on a
struct entity never fails and equals `sanitizeRecord`, see
`sanitizeEntity_struct`) is applied to every entity in place, then the
template is executed against the sanitized list. Template execution
cannot fail for schema-typed records, so the result is the generated
text. -/
def generateCodeString (entities : List GoRecord) (pluralName typeName : String)
    (fields : List GoField) : String :=
  executeTemplate pluralName typeName fields (entities.map sanitizeRecord)

/-- Embedding of `strings.Title` restricted to the single lowercase
ASCII words this program passes it (`people`, `teams`): the first
character is upper-cased. -/
def title (s : String) : String :=
  match s.data with
  | [] => ""
  | c :: cs => String.mk (c.toUpper :: cs)

/-- The schema descriptor of `model.Team` (`model/team.go`): field
declaration order `Name`, `InternalSlackChannel`, `Members`. -/
def teamFields : List GoField :=
  [⟨"Name", GoType.str⟩, ⟨"InternalSlackChannel", GoType.str⟩,
   ⟨"Members", GoType.slice GoType.str⟩]

/-- A hypothetical record kind with a numeric field, used to exercise
the `default` branch of the `switch` in `generateTemplate`: its static
shape is neither a string nor a slice of strings. -/
def personFields : List GoField := [⟨"Name", GoType.str⟩, ⟨"Age", GoType.int⟩]

/-- The check at the top of `sanitizeEntity`:
`val.Kind() == reflect.Ptr && val.Elem().Kind() == reflect.Struct`. A
nil pointer fails it because `Elem()` of a nil pointer is the invalid
value. -/
def isPointerToStruct : GoVal → Bool
  | GoVal.ptr (some (GoVal.strukt _)) => true
  | _ => false

/-- Whether a field value is of one of the two shapes `sanitizeEntity`
modifies: a string, or a slice whose static element type is string. -/
def isStringKindField : GoVal → Bool
  | GoVal.str _ => true
  | GoVal.slice GoType.str _ => true
  | _ => false

/-- Outcome of the persist step of `generateCodeFile`: the content of
the file at the destination path afterwards (`none` if absent), whether
the output file handle is still open when the process ends, and the
fatal diagnostic if the run aborted. -/
structure PersistResult where
  destFile : Option String
  handleOpen : Bool
  fatalErr : Option String
deriving DecidableEq

/-- Embedding of the persist step of `generateCodeFile` (`generate.go`
lines 182-197) with filesystem failure injection. `prior` is the content
of any file already at the destination path (`none` if absent);
`createOk` says whether `os.Create` succeeds; `writeFailAfter` is `none`
when `WriteString` writes the whole text and `some k` when the write
fails after `k` bytes. The code calls `os.Create`, which truncates or
creates the destination before anything is written, then defers
`f.Close()` and calls `f.WriteString`. Every error is handled with
`log.Fatalf`, which calls `os.Exit`, and `os.Exit` does not run deferred
functions: on a write failure the truncated partial file stays on disk
and the deferred close never runs. -/
def generateCodeFilePersist (prior : Option String) (entityCode : String)
    (createOk : Bool) (writeFailAfter : Option Nat) : PersistResult :=
  if createOk then
    match writeFailAfter with
    | none =>
        { destFile := some entityCode, handleOpen := false, fatalErr := none }
    | some k =>
        { destFile := some (entityCode.take k), handleOpen := true,
          fatalErr := some "failed to write code to file" }
  else
    { destFile := prior, handleOpen := false,
      fatalErr := some "failed to create output file" }

/-! Helper lemmas. -/

/-- Trimming with `strings.TrimSpace` is idempotent, at the character
list level. -/
theorem trimSpaceList_idem (l : List Char) :
    trimSpaceList (trimSpaceList l) = trimSpaceList l := by
  show List.rdropWhile goIsSpace
      ((List.rdropWhile goIsSpace (l.dropWhile goIsSpace)).dropWhile goIsSpace)
    = List.rdropWhile goIsSpace (l.dropWhile goIsSpace)
  have hdrop : (List.rdropWhile goIsSpace (l.dropWhile goIsSpace)).dropWhile goIsSpace
      = List.rdropWhile goIsSpace (l.dropWhile goIsSpace) := by
    rw [List.dropWhile_eq_self_iff]
    intro hl
    have hpre := List.rdropWhile_prefix goIsSpace (l.dropWhile goIsSpace)
    have hlen : 0 < (l.dropWhile goIsSpace).length :=
      lt_of_lt_of_le hl hpre.length_le
    have hget := hpre.getElem hl
    have hnot := List.dropWhile_get_zero_not goIsSpace l hlen
    simp only [List.get_eq_getElem] at hnot ⊢
    rw [hget]
    exact hnot
  rw [hdrop, List.rdropWhile_idempotent]

/-- Trimming with `strings.TrimSpace` is idempotent. -/
theorem trimSpace_idem (s : String) : trimSpace (trimSpace s) = trimSpace s :=
  congrArg String.mk (trimSpaceList_idem s.data)

/-- Element trimming is idempotent. -/
theorem trimElem_idem (v : GoVal) : trimElem (trimElem v) = trimElem v := by
  cases v with
  | str s => exact congrArg GoVal.str (trimSpace_idem s)
  | int n => rfl
  | slice t xs => rfl
  | strukt fs => rfl
  | ptr o => rfl

/-- Field sanitization is idempotent. -/
theorem sanitizeField_idem (v : GoVal) : sanitizeField (sanitizeField v) = sanitizeField v := by
  cases v with
  | str s => exact congrArg GoVal.str (trimSpace_idem s)
  | int n => rfl
  | strukt fs => rfl
  | ptr o => rfl
  | slice t xs =>
      cases t with
      | str =>
          show GoVal.slice GoType.str ((xs.map trimElem).map trimElem)
            = GoVal.slice GoType.str (xs.map trimElem)
          rw [List.map_map]
          exact congrArg _ (List.map_congr_left fun a _ => trimElem_idem a)
      | int => rfl
      | slice t2 => rfl
      | strukt n => rfl

/-- Record sanitization is idempotent. -/
theorem sanitizeRecord_idem (r : GoRecord) :
    sanitizeRecord (sanitizeRecord r) = sanitizeRecord r := by
  show (r.map fun nv => (nv.1, sanitizeField nv.2)).map (fun nv => (nv.1, sanitizeField nv.2))
    = r.map fun nv => (nv.1, sanitizeField nv.2)
  rw [List.map_map]
  exact List.map_congr_left fun nv _ => by
    show (nv.1, sanitizeField (sanitizeField nv.2)) = (nv.1, sanitizeField nv.2)
    rw [sanitizeField_idem]

/-- On a pointer to a struct, `sanitizeEntity` succeeds and trims the
fields with `sanitizeRecord`. -/
theorem sanitizeEntity_struct (r : GoRecord) :
    sanitizeEntity (GoVal.ptr (some (GoVal.strukt r)))
      = Except.ok (GoVal.ptr (some (GoVal.strukt (sanitizeRecord r)))) := rfl

/-- A field value of a shape `sanitizeEntity` does not modify is kept
exactly as it was. -/
theorem sanitizeField_frame (v : GoVal) (h : isStringKindField v = false) :
    sanitizeField v = v := by
  cases v with
  | str s => exact Bool.noConfusion h
  | int n => rfl
  | strukt fs => rfl
  | ptr o => rfl
  | slice t xs =>
      cases t with
      | str => exact Bool.noConfusion h
      | int => rfl
      | slice t2 => rfl
      | strukt n => rfl

/-- Positional frame property of record sanitization. -/
theorem sanitizeRecord_getD (l : GoRecord) :
    ∀ (i : Nat) (d : String × GoVal),
      isStringKindField (l.getD i d).2 = false →
      (sanitizeRecord l).getD i d = l.getD i d := by
  induction l with
  | nil => intro i d _; rfl
  | cons p t ih =>
      intro i d h
      cases i with
      | zero =>
          simp only [List.getD_cons_zero] at h ⊢
          show (p.1, sanitizeField p.2) = p
          rw [sanitizeField_frame p.2 h]
      | succ j =>
          simp only [List.getD_cons_succ] at h ⊢
          exact ih j d h

/-- The body of the generated unit is the concatenation, in order, of
one rendered line per record. -/
theorem renderBody_eq_foldr (fields : List GoField) (rs : List GoRecord) :
    renderBody fields rs = (rs.map (renderRecord fields)).foldr (fun a b => a ++ b) "" := by
  induction rs with
  | nil => rfl
  | cons r t ih =>
      show renderRecord fields r ++ renderBody fields t = _
      rw [ih]
      rfl

/-! Claim theorems. -/

/-- C1: the claim says every interpolated value is escaped so that quote
characters, backslashes and newlines cannot break the generated syntax.
The code does no escaping at all: executing the synthesized template on
a team whose sanitized Name is the 8-character text containing two
quote characters around hi interpolates the quotes verbatim, so the
generated line reads Name: "say "hi"" and the string literal is
terminated early. This theorem evaluates the pipeline at that failing
input and exhibits the raw, unescaped output. -/
theorem quote_not_escaped :
    generateCodeString
      [[("Name", GoVal.str " say \x22hi\x22 "),
        ("InternalSlackChannel", GoVal.str "#x"),
        ("Members", GoVal.slice GoType.str [])]]
      (title "teams") "model.Team" teamFields
      = "package generated_data\n\nimport \x22github.com/rvodden/teams/model\x22\n\nvar Teams = []model.Team\x7b\n    \x7bName: \x22say \x22hi\x22\x22, InternalSlackChannel: \x22#x\x22, Members: []string\x7b \x7d\x7d,\n\x7d\n" := rfl

/-- C2: the claim says a record kind with a field whose shape is neither
a scalar string nor a list of strings makes generation fail with an
UnsupportedFieldKind error before any file is written. The code has no
such error: the switch in generateTemplate sends every non-slice kind
through the default branch, which renders it as a quoted interpolation,
and the pipeline then silently produces wrong code. This theorem
evaluates both stages on a record kind with a numeric field Age: the
synthesized template treats Age like a string, and the rendered unit
contains Age: "30", a quoted numeral that does not typecheck as a Go
int field, with no error anywhere. -/
theorem unsupported_kind_rendered_silently :
    generateTemplate "People" "main.Person" personFields
      = "package generated_data\n\nimport \x22github.com/rvodden/teams/model\x22\n\nvar People = []main.Person\x7b\n\x7b\x7b- range . \x7d\x7d\n    \x7bName: \x22\x7b\x7b .Name \x7d\x7d\x22, Age: \x22\x7b\x7b .Age \x7d\x7d\x22\x7d,\n\x7b\x7b- end \x7d\x7d\n\x7d\n" ∧
    generateCodeString [[("Name", GoVal.str "Bob"), ("Age", GoVal.int 30)]]
      "People" "main.Person" personFields
      = "package generated_data\n\nimport \x22github.com/rvodden/teams/model\x22\n\nvar People = []main.Person\x7b\n    \x7bName: \x22Bob\x22, Age: \x2230\x22\x7d,\n\x7d\n" :=
  ⟨rfl, rfl⟩

/-- C3: the end-to-end scenario. For the single team record with Name
"  Platform Team  ", InternalSlackChannel "#platform" and Members
containing " alice " and "bob ", collection name teams, the pipeline
produces the Generated Source Unit declaring exactly one record with
Name "Platform Team", InternalSlackChannel "#platform" and Members
alice, bob, fields rendered in declaration order. -/
theorem end_to_end_teams :
    generateCodeString
      [[("Name", GoVal.str "  Platform Team  "),
        ("InternalSlackChannel", GoVal.str "#platform"),
        ("Members", GoVal.slice GoType.str [GoVal.str " alice ", GoVal.str "bob "])]]
      (title "teams") "model.Team" teamFields
      = "package generated_data\n\nimport \x22github.com/rvodden/teams/model\x22\n\nvar Teams = []model.Team\x7b\n    \x7bName: \x22Platform Team\x22, InternalSlackChannel: \x22#platform\x22, Members: []string\x7b\x22alice\x22,\x22bob\x22, \x7d\x7d,\n\x7d\n" := rfl

/-- C4: order preservation. The Generated Source Unit is the fixed head,
then the concatenation of one rendered line per input record, in exactly
the order the records were given, then the fixed foot: no record is
reordered, deduplicated or sorted anywhere in the pipeline. -/
theorem generateCodeString_order (entities : List GoRecord)
    (pluralName typeName : String) (fields : List GoField) :
    generateCodeString entities pluralName typeName fields
      = unitHead pluralName typeName ++
        ((entities.map fun r => renderRecord fields (sanitizeRecord r)).foldr
          (fun a b => a ++ b) "") ++ unitFoot := by
  show unitHead pluralName typeName ++ renderBody fields (entities.map sanitizeRecord) ++ unitFoot
    = _
  rw [renderBody_eq_foldr, List.map_map]
  rfl

/-- C5: determinism. The pipeline of the embedding is a pure function of
the loaded records, the collection name and the schema; the Go code
iterates only slices and struct fields in declaration order and consults
no map, clock or randomness, so two runs over the same data source and
schema produce byte-identical Generated Source Units. -/
theorem generation_deterministic (entities1 entities2 : List GoRecord)
    (pluralName typeName : String) (fields : List GoField)
    (h : entities1 = entities2) :
    generateCodeString entities1 pluralName typeName fields
      = generateCodeString entities2 pluralName typeName fields := by
  rw [h]

/-- Witness for C5 at a concrete input. -/
theorem generation_deterministic_witness :
    generateCodeString [[("Name", GoVal.str " a ")]] "Teams" "model.Team" teamFields
      = generateCodeString [[("Name", GoVal.str " a ")]] "Teams" "model.Team" teamFields :=
  generation_deterministic [[("Name", GoVal.str " a ")]] [[("Name", GoVal.str " a ")]]
    "Teams" "model.Team" teamFields rfl

/-- C6: sanitization is idempotent. For every string s, trimming twice
equals trimming once, and applying sanitizeEntity to a record it has
already sanitized leaves every field unchanged. -/
theorem sanitize_idempotent :
    (∀ s : String, trimSpace (trimSpace s) = trimSpace s) ∧
    ∀ e e2 : GoVal, sanitizeEntity e = Except.ok e2 → sanitizeEntity e2 = Except.ok e2 := by
  refine ⟨trimSpace_idem, ?_⟩
  intro e e2 h
  match e, h with
  | GoVal.str s, h => exact Except.noConfusion h
  | GoVal.int n, h => exact Except.noConfusion h
  | GoVal.slice t xs, h => exact Except.noConfusion h
  | GoVal.strukt fs, h => exact Except.noConfusion h
  | GoVal.ptr none, h => exact Except.noConfusion h
  | GoVal.ptr (some (GoVal.str s)), h => exact Except.noConfusion h
  | GoVal.ptr (some (GoVal.int n)), h => exact Except.noConfusion h
  | GoVal.ptr (some (GoVal.slice t xs)), h => exact Except.noConfusion h
  | GoVal.ptr (some (GoVal.ptr o)), h => exact Except.noConfusion h
  | GoVal.ptr (some (GoVal.strukt r)), h =>
      rw [sanitizeEntity_struct] at h
      injection h with h2
      subst h2
      rw [sanitizeEntity_struct, sanitizeRecord_idem]

/-- Witness for C6: sanitizing the already-sanitized team record is a
no-op. -/
theorem sanitize_idempotent_witness :
    sanitizeEntity (GoVal.ptr (some (GoVal.strukt [("Name", GoVal.str "x")])))
      = Except.ok (GoVal.ptr (some (GoVal.strukt [("Name", GoVal.str "x")]))) :=
  sanitize_idempotent.2 (GoVal.ptr (some (GoVal.strukt [("Name", GoVal.str " x ")])))
    (GoVal.ptr (some (GoVal.strukt [("Name", GoVal.str "x")]))) rfl

/-- C7: a data source with zero records is handled without error: for
every collection name and schema the pipeline emits the unit declaring
the collection with zero elements, and for the teams collection the
emitted text is exactly the empty collection declaration. -/
theorem empty_input_ok :
    (∀ (pluralName typeName : String) (fields : List GoField),
        generateCodeString [] pluralName typeName fields
          = unitHead pluralName typeName ++ unitFoot) ∧
    generateCodeString [] (title "teams") "model.Team" teamFields
      = "package generated_data\n\nimport \x22github.com/rvodden/teams/model\x22\n\nvar Teams = []model.Team\x7b\n\x7d\n" := by
  constructor
  · intro pluralName typeName fields
    show unitHead pluralName typeName ++ "" ++ unitFoot = unitHead pluralName typeName ++ unitFoot
    rw [String.append_empty]
  · rfl

/-- C8: the claim says a failed write leaves no output file behind and
the file handle is released on every exit path. The code creates (and
truncates) the destination with os.Create before writing, and handles a
write failure with log.Fatalf, which exits the process without running
the deferred Close: when the write fails after 7 bytes, a truncated
partial file remains at the destination and the handle is still open.
This theorem evaluates the persist step at that failing input. -/
theorem persist_partial_file :
    generateCodeFilePersist none "package generated_data" true (some 7)
      = { destFile := some "package", handleOpen := true,
          fatalErr := some "failed to write code to file" } := rfl

/-- C9: sanitizeEntity returns an error exactly when its argument is not
a pointer to a struct value, and succeeds (returns nil) on every pointer
to a struct, so sanitization of well-typed records never fails. -/
theorem sanitizeEntity_ok_iff (e : GoVal) :
    (sanitizeEntity e).isOk = isPointerToStruct e := by
  match e with
  | GoVal.str s => rfl
  | GoVal.int n => rfl
  | GoVal.slice t xs => rfl
  | GoVal.strukt fs => rfl
  | GoVal.ptr none => rfl
  | GoVal.ptr (some (GoVal.str s)) => rfl
  | GoVal.ptr (some (GoVal.int n)) => rfl
  | GoVal.ptr (some (GoVal.slice t xs)) => rfl
  | GoVal.ptr (some (GoVal.strukt fs)) => rfl
  | GoVal.ptr (some (GoVal.ptr o)) => rfl

/-- C10: frame property of sanitizeEntity: it only modifies string
fields and elements of string-slice fields; a field of any other shape
(numeric, struct, pointer, or a slice whose element type is not string,
together with all elements of such a slice) is left exactly as it was. -/
theorem sanitizeEntity_frame (fields fields2 : GoRecord)
    (h : sanitizeEntity (GoVal.ptr (some (GoVal.strukt fields)))
          = Except.ok (GoVal.ptr (some (GoVal.strukt fields2)))) :
    fields2.length = fields.length ∧
    ∀ (i : Nat) (d : String × GoVal),
      isStringKindField (fields.getD i d).2 = false →
      fields2.getD i d = fields.getD i d := by
  have hf : fields2 = sanitizeRecord fields := by
    rw [sanitizeEntity_struct] at h
    injection h with h2
    injection h2 with h3
    injection h3 with h4
    injection h4 with h5
    exact h5.symm
  subst hf
  refine ⟨List.length_map _ _, ?_⟩
  intro i d hkind
  exact sanitizeRecord_getD fields i d hkind

/-- Witness for C10: a record whose only field is numeric is returned
with that field untouched. -/
theorem sanitizeEntity_frame_witness :
    ([("Age", GoVal.int 30)] : GoRecord).getD 0 ("", GoVal.int 0)
      = ([("Age", GoVal.int 30)] : GoRecord).getD 0 ("", GoVal.int 0) :=
  (sanitizeEntity_frame [("Age", GoVal.int 30)] [("Age", GoVal.int 30)] rfl).2
    0 ("", GoVal.int 0) rfl
